import Mathlib

/-!
Verification of the influx-mcp query-translation and dialect-abstraction
layer, shallowly embedded from the Python source
(`influx_mcp/utils.py`, `influx_mcp/queries.py`, `influx_mcp/client.py`,
`influx_mcp/config.py`).

Modelling conventions:
* instants are `Int` seconds since the Unix epoch (UTC); the wall clock
  `datetime.now(timezone.utc)` becomes an explicit `now : Int` parameter;
* Python exceptions become `Except` values;
* the backend (`influx_client.query`, HTTP probes, the database listing)
  is not code of this layer: its response is passed to the embedded
  functions as an explicit argument;
* Python truthiness of optional strings / lists / dicts is modelled by
  explicit emptiness tests.
-/

namespace InfluxMCP

/-- Python `str.lower()` restricted to the ASCII case mapping
(sufficient for the literals `"now"` / `"now()"` compared against). -/
def strLower (s : String) : String := ⟨s.data.map Char.toLower⟩

/-- Python `sep.join(parts)`. -/
def joinSep (sep : String) : List String → String
  | [] => ""
  | [x] => x
  | x :: y :: rest => x ++ sep ++ joinSep sep (y :: rest)

/-- String append is associative (used to rearrange rendered query text). -/
theorem sapp_assoc (a b c : String) : (a ++ b) ++ c = a ++ (b ++ c) := by
  cases a with | mk la =>
  cases b with | mk lb =>
  cases c with | mk lc =>
  show String.mk ((la ++ lb) ++ lc) = String.mk (la ++ (lb ++ lc))
  rw [List.append_assoc]

/-- `(s ++ t).data = s.data ++ t.data`. -/
theorem sapp_data (s t : String) : (s ++ t).data = s.data ++ t.data := by
  cases s with | mk la =>
  cases t with | mk lb =>
  rfl

-- ---------------------------------------------------------------------------
-- Time range parsing (`influx_mcp/utils.py`, lines 8-56)
-- ---------------------------------------------------------------------------

/-- First code points of the Unicode decimal-digit (category `Nd`) ranges,
each covering the ten digits `start..start+9` with values `0..9`
(Unicode 15.0, as shipped with current CPython).  Python's `\d` matches
exactly these characters, and `int()` uses their decimal values. -/
def ndRangeStarts : List Nat :=
  [0x30, 0x660, 0x6F0, 0x7C0, 0x966, 0x9E6, 0xA66, 0xAE6, 0xB66, 0xBE6,
   0xC66, 0xCE6, 0xD66, 0xDE6, 0xE50, 0xED0, 0xF20, 0x1040, 0x1090, 0x17E0,
   0x1810, 0x1946, 0x19D0, 0x1A80, 0x1A90, 0x1B50, 0x1BB0, 0x1C40, 0x1C50,
   0xA620, 0xA8D0, 0xA900, 0xA9D0, 0xA9F0, 0xAA50, 0xABF0, 0xFF10, 0x104A0,
   0x10D30, 0x11066, 0x110F0, 0x11136, 0x111D0, 0x112F0, 0x11450, 0x114D0,
   0x11650, 0x116C0, 0x11730, 0x118E0, 0x11950, 0x11C50, 0x11D50, 0x11DA0,
   0x11F50, 0x16A60, 0x16AC0, 0x16B50, 0x1D7CE, 0x1D7D8, 0x1D7E2, 0x1D7EC,
   0x1D7F6, 0x1E140, 0x1E2F0, 0x1E4F0, 0x1E950, 0x1FBF0]

/-- Python's `\d` (any Unicode decimal digit): its decimal value, or
`none` when the character is not a decimal digit. -/
def pyDigitVal (c : Char) : Option Nat :=
  (ndRangeStarts.find? (fun s => decide (s ≤ c.toNat ∧ c.toNat ≤ s + 9))).map
    (fun s => c.toNat - s)

/-- Tail of the regex `^-(\d+)([mhd])$` (after the leading `-`): one or
more decimal digits (`\d` is any Unicode decimal digit) followed by exactly
one unit character in `{m,h,d}`, where `$` matches at the end of the input
or just before a single trailing newline (Python `re` semantics, so
`"-7d\n"` is accepted).  `seen` records whether at least one digit has been
consumed; `acc` is the decimal value of the digits consumed so far
(Python `int()` on the matched group). -/
def relAux : List Char → Bool → Nat → Option (Nat × Char)
  | [], _, _ => none
  | c :: cs, seen, acc =>
      match pyDigitVal c with
      | some d => relAux cs true (acc * 10 + d)
      | none =>
          if seen && (c == 'm' || c == 'h' || c == 'd')
              && (cs.isEmpty || cs == ['\n']) then
            some (acc, c)
          else none

/-- `re.match(r"^-(\d+)([mhd])$", time_str)` from `_parse_time_string`:
returns the integer value of group 1 and the unit character of group 2. -/
def matchRelative (s : String) : Option (Nat × Char) :=
  match s.data with
  | c :: rest => if c = '-' then relAux rest false 0 else none
  | [] => none

/-- The `timedelta` built by `_parse_time_string` for a relative match, in
seconds: minutes, hours or days; the final `0` branch is unreachable because
the regex only accepts `m`/`h`/`d`. -/
def relDelta (value : Nat) (unit : Char) : Int :=
  if unit = 'm' then 60 * value
  else if unit = 'h' then 3600 * value
  else if unit = 'd' then 86400 * value
  else 0

/-- Two ASCII digits (helper for the ISO-8601 parser). -/
def take2 : List Char → Option (Nat × List Char)
  | a :: b :: rest =>
      if a.isDigit && b.isDigit then
        some ((a.toNat - 48) * 10 + (b.toNat - 48), rest)
      else none
  | _ => none

/-- Four ASCII digits (helper for the ISO-8601 parser). -/
def take4 : List Char → Option (Nat × List Char)
  | a :: b :: c :: d :: rest =>
      if a.isDigit && b.isDigit && c.isDigit && d.isDigit then
        some ((((a.toNat - 48) * 10 + (b.toNat - 48)) * 10 + (c.toNat - 48)) * 10
              + (d.toNat - 48), rest)
      else none
  | _ => none

/-- Days since 1970-01-01 of a civil date (proleptic Gregorian). -/
def daysFromCivil (y : Int) (m d : Nat) : Int :=
  let y' : Int := if m ≤ 2 then y - 1 else y
  let era : Int := (if 0 ≤ y' then y' else y' - 399) / 400
  let yoe : Int := y' - era * 400
  let mp : Nat := (m + 9) % 12
  let doy : Nat := (153 * mp + 2) / 5 + d - 1
  let doe : Int := yoe * 365 + yoe / 4 - yoe / 100 + doy
  era * 146097 + doe - 719468

/-- Timezone suffix: empty (UTC assumed, mirroring the
`if dt.tzinfo is None: dt = dt.replace(tzinfo=timezone.utc)` branch of
`_parse_time_string`), `Z`, or `±HH:MM`.  Returns the offset in seconds. -/
def parseTZ : List Char → Option Int
  | [] => some 0
  | ['Z'] => some 0
  | '+' :: rest => do
      let (h, r1) ← take2 rest
      match r1 with
      | ':' :: r2 => do
          let (mi, r3) ← take2 r2
          if r3 = [] ∧ h ≤ 23 ∧ mi ≤ 59 then some ((h * 3600 + mi * 60 : Nat))
          else none
      | _ => none
  | '-' :: rest => do
      let (h, r1) ← take2 rest
      match r1 with
      | ':' :: r2 => do
          let (mi, r3) ← take2 r2
          if r3 = [] ∧ h ≤ 23 ∧ mi ≤ 59 then some (-((h * 3600 + mi * 60 : Nat) : Int))
          else none
      | _ => none
  | _ => none

/-- Optional `:SS` seconds component followed by the timezone suffix. -/
def parseSecTZ : List Char → Option (Nat × Int)
  | ':' :: rest => do
      let (s, r1) ← take2 rest
      if s ≤ 59 then do
        let off ← parseTZ r1
        some (s, off)
      else none
  | rest => do
      let off ← parseTZ rest
      some (0, off)

/-- Optional `THH:MM[:SS]` time-of-day component followed by the timezone
suffix; absent time-of-day means midnight UTC. -/
def parseTimeOfDay : List Char → Option (Nat × Nat × Nat × Int)
  | [] => some (0, 0, 0, 0)
  | 'T' :: rest => do
      let (h, r1) ← take2 rest
      match r1 with
      | ':' :: r2 => do
          let (mi, r3) ← take2 r2
          if h ≤ 23 ∧ mi ≤ 59 then do
            let (s, off) ← parseSecTZ r3
            some (h, mi, s, off)
          else none
      | _ => none
  | _ => none

/-- Modelled from the spec: `dateutil.parser.parse` (an external library) is
not part of this repository; the spec says any non-relative string "is parsed
as an absolute ISO-8601 timestamp; if it lacks timezone information, UTC is
assumed".  This parser accepts `YYYY-MM-DD[THH:MM[:SS]][Z|±HH:MM]` and
returns the instant as epoch seconds (UTC), `none` on anything else. -/
def parseISO8601 (s : String) : Option Int := do
  let (y, r1) ← take4 s.data
  match r1 with
  | '-' :: r2 => do
      let (mo, r3) ← take2 r2
      match r3 with
      | '-' :: r4 => do
          let (d, r5) ← take2 r4
          if 1 ≤ mo ∧ mo ≤ 12 ∧ 1 ≤ d ∧ d ≤ 31 then do
            let (h, mi, sec, off) ← parseTimeOfDay r5
            some (daysFromCivil y mo d * 86400 + h * 3600 + mi * 60 + sec - off)
          else none
      | _ => none
  | _ => none

/-- `_parse_time_string` (`utils.py` lines 24-56).  `now` is the injected
wall-clock instant; `relative_to` mirrors the optional anchor parameter
(a `datetime` is always truthy in Python, so `relative_to if relative_to
else now` is `relative_to.getD now`). -/
def _parse_time_string (now : Int) (time_str : String) (relative_to : Option Int) :
    Except String Int :=
  if strLower time_str = "now" ∨ strLower time_str = "now()" then
    .ok now
  else
    match matchRelative time_str with
    | some (value, unit) =>
        let delta := relDelta value unit
        let base_time := relative_to.getD now
        .ok (base_time - delta)
    | none =>
        match parseISO8601 time_str with
        | some dt => .ok dt
        | none =>
            .error ("Invalid time format '" ++ time_str ++
                    "'. Must be ISO 8601 or relative (e.g., '-7d').")

/-- `parse_time_range` (`utils.py` lines 8-21): `stop` is `Option String`
(Python `None` is `none`; the Python default argument is `"now"`); the
falsy test `stop if stop else "now"` maps `none` and `some ""` to `"now"`.
The stop string is resolved first (anchored to `now`), then the start string
is resolved with the already-resolved stop instant as anchor. -/
def parse_time_range (now : Int) (start : String)
    (stop : Option String := some "now") : Except String (Int × Int) := do
  let stopStr := match stop with
    | none => "now"
    | some s => if s = "" then "now" else s
  let stop_dt ← _parse_time_string now stopStr none
  let start_dt ← _parse_time_string now start (some stop_dt)
  .ok (start_dt, stop_dt)

-- ---------------------------------------------------------------------------
-- Query builders (`influx_mcp/queries.py`)
-- ---------------------------------------------------------------------------

/-- Python truthiness of an `Optional[str]`: `None` and `""` are falsy. -/
def isTruthy : Option String → Bool
  | none => false
  | some s => s ≠ ""

/-- `" and ".join([f'r["{k}"] == "{v}"' for k, v in tags.items()]) if tags
else ""` (`queries.py` line 118).  Dict iteration order is insertion order,
modelled by the association list order. -/
def fluxTagFilters (tags : List (String × String)) : String :=
  if tags ≠ [] then
    joinSep " and " (tags.map fun kv => "r[\"" ++ kv.1 ++ "\"] == \"" ++ kv.2 ++ "\"")
  else ""

/-- The part of the Flux query built by `query_timeseries_v2` before the
aggregation block (`queries.py` lines 117-125): source clause, range clause,
measurement filter, field filter, optional conjunctive tag filter. -/
def fluxPrefix (bucket measurement field sIso eIso : String)
    (tags : List (String × String)) : String :=
  let time_filter := "start: " ++ sIso ++ "Z, stop: " ++ eIso ++ "Z"
  let tag_filters := fluxTagFilters tags
  "from(bucket: \"" ++ bucket ++ "\")\n"
  ++ ("  |> range(" ++ time_filter ++ ")\n")
  ++ ("  |> filter(fn: (r) => r[\"_measurement\"] == \"" ++ measurement ++ "\")\n")
  ++ ("  |> filter(fn: (r) => r[\"_field\"] == \"" ++ field ++ "\")\n")
  ++ (if tag_filters ≠ "" then "  |> filter(fn: (r) => " ++ tag_filters ++ ")\n" else "")

/-- The aggregation block of `query_timeseries_v2` (`queries.py` lines
127-134), emitted only when `aggregate and every` is truthy.  Note the
source's `'interpolate.linear(every: \x7bevery\x7d)'` string is a plain
literal (no `f` prefix), so the braces are emitted verbatim; the embedding
reproduces that text exactly. -/
def fluxAggPart (aggregate every : Option String) (fill : String) : String :=
  if isTruthy aggregate && isTruthy every then
    let fill_part :=
      if fill ≠ "none" then
        "fill(usePrevious: " ++ (if fill = "previous" then "true" else "false") ++ ")"
      else ""
    let fill_part :=
      if fill = "linear" then "interpolate.linear(every: \x7bevery\x7d)" else fill_part
    ("  |> aggregateWindow(every: " ++ every.getD "" ++ ", fn: " ++ aggregate.getD ""
      ++ ", createEmpty: " ++ (if fill ≠ "none" then "true" else "false") ++ ")\n")
    ++ (if fill_part ≠ "" then "  |> " ++ fill_part ++ "\n" else "")
  else ""

/-- The full Flux query text built by `query_timeseries_v2` (`queries.py`
lines 117-137): prefix stages, then the aggregation block, then the
result-limit stage and the terminal yield stage, concatenated in exactly the
source's `+=` order. -/
def buildFluxQuery (bucket measurement field sIso eIso : String)
    (tags : List (String × String)) (aggregate every : Option String)
    (limit : Nat) (fill : String) : String :=
  fluxPrefix bucket measurement field sIso eIso tags
  ++ (fluxAggPart aggregate every fill
  ++ ("  |> limit(n: " ++ (toString limit ++ (")\n" ++ "  |> yield(name: \"results\")"))))

/-- `" AND ".join([f'"{k}" = \x27{v}\x27' for k, v in tags.items()]) if tags
else ""` (`queries.py` line 163). -/
def qlTagFilters (tags : List (String × String)) : String :=
  if tags ≠ [] then
    joinSep " AND " (tags.map fun kv => "\"" ++ kv.1 ++ "\" = '" ++ kv.2 ++ "'")
  else ""

/-- `f'"{db}"."{rp}"."{measurement}"' if rp else f'"{db}".."{measurement}"'`
(`queries.py` line 165); `rp` is falsy when `None` or empty. -/
def qlTargetMeasurement (db : String) (rp : Option String) (measurement : String) : String :=
  if isTruthy rp then
    "\"" ++ db ++ "\".\"" ++ rp.getD "" ++ "\".\"" ++ measurement ++ "\""
  else
    "\"" ++ db ++ "\"..\"" ++ measurement ++ "\""

/-- The InfluxQL statement built by `query_timeseries_v1` (`queries.py`
lines 162-184): SELECT clause, qualified measurement, time bounds, optional
tag conjunction, optional GROUP BY time window, optional fill clause
(omitted entirely for `fill=linear`), and trailing LIMIT. -/
def buildInfluxQLQuery (db : String) (rp : Option String)
    (measurement field sIso eIso : String) (tags : List (String × String))
    (aggregate every : Option String) (limit : Nat) (fill : String) : String :=
  let time_filter := "time >= '" ++ sIso ++ "Z' AND time <= '" ++ eIso ++ "Z'"
  let tag_filters := qlTagFilters tags
  let target_measurement := qlTargetMeasurement db rp measurement
  let agg := isTruthy aggregate && isTruthy every
  let select_clause :=
    if agg then aggregate.getD "" ++ "(\"" ++ field ++ "\")" else "\"" ++ field ++ "\""
  let group_by_clause := if agg then "GROUP BY time(" ++ every.getD "" ++ ")" else ""
  let fill_clause :=
    if agg then (if fill ≠ "linear" then "fill(" ++ fill ++ ")" else "") else ""
  let q := "SELECT " ++ select_clause ++ " FROM " ++ target_measurement
             ++ " WHERE " ++ time_filter
  let q := if tag_filters ≠ "" then q ++ (" AND " ++ tag_filters) else q
  let q := if group_by_clause ≠ "" then q ++ (" " ++ group_by_clause) else q
  let q := if fill_clause ≠ "" then q ++ (" " ++ fill_clause) else q
  q ++ (" LIMIT " ++ toString limit)

/-- The InfluxQL statement built by the v1 branch of `get_last_point`
(`queries.py` lines 263-268): `SELECT <field or *> FROM "<measurement>"
[WHERE <tag-equalities>] ORDER BY time DESC LIMIT 1`. -/
def buildLastPointV1Query (measurement : String) (field : Option String)
    (tags : List (String × String)) : String :=
  let tag_filters := qlTagFilters tags
  let select_clause := if isTruthy field then "\"" ++ field.getD "" ++ "\"" else "*"
  let q := "SELECT " ++ select_clause ++ " FROM \"" ++ measurement ++ "\""
  let q := if tag_filters ≠ "" then q ++ (" WHERE " ++ tag_filters) else q
  q ++ " ORDER BY time DESC LIMIT 1"

-- ---------------------------------------------------------------------------
-- Result shapes and result processing (`influx_mcp/schemas.py`, `queries.py`)
-- ---------------------------------------------------------------------------

/-- A dynamic scalar value as delivered by the backend drivers. -/
inductive Value where
  | str : String → Value
  | int : Int → Value
  | null : Value
deriving DecidableEq, Repr

/-- A Python exception raised by the query layer. -/
inductive PyErr where
  | valueError : String → PyErr
  | keyError : String → PyErr
deriving DecidableEq, Repr

/-- The `NoDataFound` condition: `ValueError("No data found for the
specified criteria.")` raised by both branches of `get_last_point`. -/
def noDataFound : PyErr := .valueError "No data found for the specified criteria."

/-- One point dict of a v1 `ResultSet.get_points()` stream. -/
abbrev V1Point := List (String × Value)

/-- Python `p.get(k)` on a point dict. -/
def pget (p : V1Point) (k : String) : Option Value :=
  (p.find? (fun kv => kv.1 = k)).map (·.2)

/-- One Flux record of a v2 query result: its `get_time().isoformat()`,
`get_value()`, `get_field()` and the full `values` mapping. -/
structure FluxRecord where
  time_iso : String
  value : Value
  field : String
  values : List (String × Value)
deriving DecidableEq, Repr

/-- One Flux table of a v2 query result. -/
structure FluxTable where
  records : List FluxRecord
deriving DecidableEq, Repr

/-- `schemas.TimeseriesPoint`. -/
structure TimeseriesPoint where
  time_iso : Value
  value : Value
deriving DecidableEq, Repr

/-- `schemas.QueryStats`. -/
structure QueryStats where
  points_returned : Nat
  start_effective_iso : String
  stop_effective_iso : String
  aggregate_function : Option String
  downsample_interval : Option String
deriving DecidableEq, Repr

/-- `schemas.QueryTimeseriesResponse`. -/
structure QueryTimeseriesResponse where
  series : List TimeseriesPoint
  stats : QueryStats
deriving DecidableEq, Repr

/-- `schemas.LastPointResponse`. -/
structure LastPointResponse where
  time_iso : Value
  value : Value
  field : Option String
  tags : List (String × Value)
deriving DecidableEq, Repr

/-- Result processing of `query_timeseries_v2` (`queries.py` lines 140-154):
flatten tables in table-then-record order into `TimeseriesPoint`s and count
them in the stats.  The executed query text is `buildFluxQuery` applied to
the same arguments; the backend's reply is the `tables` parameter. -/
def query_timeseries_v2 (sIso eIso : String) (aggregate every : Option String)
    (tables : List FluxTable) : QueryTimeseriesResponse :=
  let series := (tables.flatMap FluxTable.records).map
    (fun rec => TimeseriesPoint.mk (.str rec.time_iso) rec.value)
  { series := series
    stats := { points_returned := series.length
               start_effective_iso := sIso
               stop_effective_iso := eIso
               aggregate_function := aggregate
               downsample_interval := every } }

/-- `p.get(aggregate, p.get(field))` (`queries.py` line 191): `aggregate`
may be `None`, which is never a key of the point dict, so the default
`p.get(field)` applies; a missing field key yields Python `None`. -/
def v1PointValue (p : V1Point) (aggregate : Option String) (field : String) : Value :=
  let fallback := (pget p field).getD .null
  match aggregate with
  | some a => (pget p a).getD fallback
  | none => fallback

/-- Result processing of `query_timeseries_v1` (`queries.py` lines 188-202):
each point dict becomes one `TimeseriesPoint` from `p['time']` (a `KeyError`
if absent) and `p.get(aggregate, p.get(field))`.  The executed statement is
`buildInfluxQLQuery` applied to the same arguments; the backend's reply is
the `points` parameter. -/
def query_timeseries_v1 (sIso eIso : String) (aggregate every : Option String)
    (field : String) (points : List V1Point) :
    Except PyErr QueryTimeseriesResponse := do
  let series ← points.mapM (fun p =>
    match pget p "time" with
    | some t => Except.ok (TimeseriesPoint.mk t (v1PointValue p aggregate field))
    | none => Except.error (PyErr.keyError "time"))
  .ok { series := series
        stats := { points_returned := series.length
                   start_effective_iso := sIso
                   stop_effective_iso := eIso
                   aggregate_function := aggregate
                   downsample_interval := every } }

/-- Result processing of the v2 branch of `get_last_point` (`queries.py`
lines 250-261): `if not tables or not tables[0].records:` raises the
`NoDataFound` `ValueError`; otherwise the first table's first record is
used, with its non-underscore, non-`result`, non-`table` values reported as
tags. -/
def get_last_point_v2 (tables : List FluxTable) : Except PyErr LastPointResponse :=
  match tables with
  | [] => .error noDataFound
  | t :: _ =>
    match t.records with
    | [] => .error noDataFound
    | record :: _ =>
        .ok { time_iso := .str record.time_iso
              value := record.value
              field := some record.field
              tags := record.values.filter
                (fun kv => ¬ kv.1.startsWith "_" ∧ kv.1 ≠ "result" ∧ kv.1 ≠ "table") }

/-- `next((k for k in point.keys() if k != 'time'), None)`. -/
def firstNonTimeKey (p : V1Point) : Option String :=
  (p.find? (fun kv => kv.1 ≠ "time")).map (·.1)

/-- Result processing of the v1 branch of `get_last_point` (`queries.py`
lines 270-283): `next(results.get_points(), None)` not being truthy (no
point, or an empty point dict) raises the `NoDataFound` `ValueError`;
otherwise the value field is `field or <first non-time key>` and the
response carries `point['time']`, `point[value_field]` and the remaining
entries as tags. -/
def get_last_point_v1 (field : Option String) (points : List V1Point) :
    Except PyErr LastPointResponse :=
  match points.head? with
  | none => .error noDataFound
  | some point =>
    if point = [] then .error noDataFound
    else
      let value_field := if isTruthy field then field else firstNonTimeKey point
      match pget point "time" with
      | none => .error (.keyError "time")
      | some t =>
        match value_field with
        | none => .error (.keyError "None")
        | some vf =>
          match pget point vf with
          | none => .error (.keyError vf)
          | some v =>
              .ok { time_iso := t
                    value := v
                    field := some vf
                    tags := (point.filter (fun kv => kv.1 ≠ "time" ∧ kv.1 ≠ vf)).map
                      (fun kv => (kv.1, kv.2)) }

-- ---------------------------------------------------------------------------
-- Dialect client (`influx_mcp/client.py`)
-- ---------------------------------------------------------------------------

/-- One retention-policy record as returned by
`client.get_list_retention_policies` (the fields the listing reads). -/
structure RetentionPolicy where
  name : String
  duration : String
  replicaN : Nat
deriving DecidableEq, Repr

/-- `schemas.BucketInfo` (the spec's `ContainerInfo`). -/
structure BucketInfo where
  name : String
  type : String
  retention_policy : Option String
deriving DecidableEq, Repr

/-- `InfluxDBV1ClientImpl.list_buckets_or_dbs` (`client.py` lines 66-76),
parametrized by the backend's database listing: each database comes with
its retention policies.  A database with retention policies contributes one
entry per policy named `db/rp`; a database with none contributes a single
entry named `db`. -/
def list_buckets_or_dbs_v1 (dbs : List (String × List RetentionPolicy)) :
    List BucketInfo :=
  dbs.flatMap (fun db =>
    if db.2 ≠ [] then
      db.2.map (fun rp =>
        BucketInfo.mk (db.1 ++ "/" ++ rp.name) "db"
          (some (rp.duration ++ "/" ++ toString rp.replicaN)))
    else [BucketInfo.mk db.1 "db" none])

/-- The two live client variants of `client.py`. -/
inductive ClientKind where
  | v1 | v2
deriving DecidableEq, Repr

/-- The v1 half of the auto-detection (`client.py` lines 158-166): probe the
`/ping` endpoint; `some code` is an HTTP response with that status, `none`
is a `requests.RequestException`.  Only status 204 selects v1. -/
def detectV1 (v1probe : Option Nat) : Option ClientKind :=
  match v1probe with
  | some code => if code = 204 then some .v1 else none
  | none => none

/-- The auto-detection (`client.py` lines 146-166): the v2 `/api/v2/ready`
endpoint is probed first and only status 200 selects v2 (any other status,
or a request exception, falls through to the v1 probe). -/
def autoDetect (v2probe v1probe : Option Nat) : Option ClientKind :=
  match v2probe with
  | some code => if code = 200 then some .v2 else detectV1 v1probe
  | none => detectV1 v1probe

/-- `get_influx_client` (`client.py` lines 131-168), with the two HTTP
probes passed in as explicit inputs.  Explicit `"2"`/`"1"` configuration
bypasses detection; `"auto"` runs the probes; when detection fails (and for
any other version string) the final `raise ConnectionError(...)` at line
168 is reached. -/
def get_influx_client (version : String) (v2probe v1probe : Option Nat) :
    Except String ClientKind :=
  if version = "2" then .ok .v2
  else if version = "1" then .ok .v1
  else
    match (if version = "auto" then autoDetect v2probe v1probe else none) with
    | some c => .ok c
    | none => .error "Could not auto-detect InfluxDB version. Please specify INFLUX_VERSION=1 or INFLUX_VERSION=2."

-- ---------------------------------------------------------------------------
-- Sensitive-data masking (`influx_mcp/utils.py` lines 59-73, `config.py`)
-- ---------------------------------------------------------------------------

/-- A Python value inside a settings dump: a `SecretStr` (with its
plaintext), a plain string, an int, `None`, or a nested dict. -/
inductive MVal where
  | secret : String → MVal
  | str : String → MVal
  | int : Int → MVal
  | null : MVal
  | dict : List (String × MVal) → MVal
deriving Repr

/-- `isinstance(value, SecretStr)`. -/
def isSecretStr : MVal → Bool
  | .secret _ => true
  | _ => false

/-- `sensitive_keys = \x7b"token", "password"\x7d` (`utils.py` line 64). -/
def sensitiveKeys : List String := ["token", "password"]

mutual

/-- `mask_sensitive_data` (`utils.py` lines 59-73): each entry whose value
is a `SecretStr` or whose key is in `sensitive_keys` is replaced by
`"***"`; nested dicts are recursed into; everything else is kept. -/
def mask_sensitive_data : List (String × MVal) → List (String × MVal)
  | [] => []
  | kv :: rest => maskEntry kv.1 kv.2 :: mask_sensitive_data rest

/-- The body of the `for key, value in data.items()` loop of
`mask_sensitive_data`, for one entry. -/
def maskEntry (key : String) (value : MVal) : String × MVal :=
  if isSecretStr value || decide (key ∈ sensitiveKeys) then (key, .str "***")
  else
    match value with
    | .dict d => (key, .dict (mask_sensitive_data d))
    | v => (key, v)

end

mutual

/-- No `SecretStr` occurs anywhere in the value. -/
def secretFreeVal : MVal → Bool
  | .secret _ => false
  | .dict d => secretFreeList d
  | _ => true

/-- No `SecretStr` occurs anywhere in the dict. -/
def secretFreeList : List (String × MVal) → Bool
  | [] => true
  | kv :: rest => secretFreeVal kv.2 && secretFreeList rest

end

/-- `config.Settings`: the fields loaded from the environment.  `SecretStr`
fields carry their plaintext as `Option String`. -/
structure Settings where
  mcp_log_level : String
  influx_version : String
  influx_url : String
  influx_request_timeout_sec : Int
  influx_org : Option String
  influx_token : Option String
  influx_default_bucket : Option String
  influx_username : Option String
  influx_password : Option String
  influx_default_db : Option String
  influx_default_rp : Option String

/-- `model_dump` of an optional plain field: `None` or the string. -/
def optStr : Option String → MVal
  | none => .null
  | some s => .str s

/-- `model_dump` of an optional `SecretStr` field: `None` or the
`SecretStr` object (still carrying its plaintext). -/
def optSecret : Option String → MVal
  | none => .null
  | some s => .secret s

/-- `self.model_dump()` inside `Settings.__repr__` (`config.py` line 44):
the fields in declaration order, secrets still unmasked. -/
def model_dump (s : Settings) : List (String × MVal) :=
  [("mcp_log_level", .str s.mcp_log_level),
   ("influx_version", .str s.influx_version),
   ("influx_url", .str s.influx_url),
   ("influx_request_timeout_sec", .int s.influx_request_timeout_sec),
   ("influx_org", optStr s.influx_org),
   ("influx_token", optSecret s.influx_token),
   ("influx_default_bucket", optStr s.influx_default_bucket),
   ("influx_username", optStr s.influx_username),
   ("influx_password", optSecret s.influx_password),
   ("influx_default_db", optStr s.influx_default_db),
   ("influx_default_rp", optStr s.influx_default_rp)]

mutual

/-- Python `repr` of a dumped value (the masked dump contains no
`SecretStr`; for completeness a `SecretStr` renders as pydantic prints it,
i.e. already masked by its own `__repr__`). -/
def renderVal : MVal → String
  | .secret _ => "SecretStr('**********')"
  | .str s => "'" ++ s ++ "'"
  | .int i => toString i
  | .null => "None"
  | .dict d => "\x7b" ++ renderEntries d ++ "\x7d"

/-- The comma-separated entries of a rendered dict. -/
def renderEntries : List (String × MVal) → String
  | [] => ""
  | [(k, v)] => "'" ++ k ++ "': " ++ renderVal v
  | (k, v) :: rest => "'" ++ k ++ "': " ++ renderVal v ++ ", " ++ renderEntries rest

end

/-- Python `repr` of a dict: `\x7b'k': v, ...\x7d`. -/
def renderDict (d : List (String × MVal)) : String :=
  "\x7b" ++ renderEntries d ++ "\x7d"

/-- `Settings.__repr__` (`config.py` lines 42-46): dump the settings, mask
them, and render `Settings(...)` around the masked dict. -/
def settingsRepr (s : Settings) : String :=
  "Settings(" ++ renderDict (mask_sensitive_data (model_dump s)) ++ ")"

-- ---------------------------------------------------------------------------
-- Substring search helpers (for stating text-shape properties)
-- ---------------------------------------------------------------------------

/-- `pat` is a prefix of `hay` (character lists). -/
def isPrefixCL : List Char → List Char → Bool
  | [], _ => true
  | _ :: _, [] => false
  | a :: as, b :: bs => a == b && isPrefixCL as bs

/-- `pat` occurs somewhere in `hay`. -/
def containsSub : List Char → List Char → Bool
  | [], pat => pat.isEmpty
  | c :: cs, pat => isPrefixCL pat (c :: cs) || containsSub cs pat

/-- Remainder of `hay` after the first occurrence of `pat`, if any. -/
def dropAfterMatch : List Char → List Char → Option (List Char)
  | [], pat => if pat.isEmpty then some [] else none
  | c :: cs, pat =>
      if isPrefixCL pat (c :: cs) then some ((c :: cs).drop pat.length)
      else dropAfterMatch cs pat

/-- All the patterns occur in `hay`, in the given order, without overlap. -/
def containsInOrder (hay : List Char) : List String → Bool
  | [] => true
  | p :: ps =>
      match dropAfterMatch hay p.data with
      | some rest => containsInOrder rest ps
      | none => false

/-- After a `|>` pipeline connector: skipping spaces must reach a stage
character, not a line end, another connector, or the end of the query. -/
def afterConnectorOk : List Char → Bool
  | [] => false
  | ' ' :: cs => afterConnectorOk cs
  | '\n' :: _ => false
  | '|' :: _ => false
  | _ => true

/-- No `|>` connector in the text dangles (each one is followed by an
actual stage). -/
def noDangling : List Char → Bool
  | [] => true
  | '|' :: '>' :: rest => afterConnectorOk rest && noDangling rest
  | _ :: rest => noDangling rest

-- ---------------------------------------------------------------------------
-- Helper lemmas
-- ---------------------------------------------------------------------------

theorem isPrefixCL_self_append : ∀ (p q : List Char), isPrefixCL p (p ++ q) = true := by
  intro p q
  induction p with
  | nil => rfl
  | cons c cs ih => simp [isPrefixCL, ih]

theorem containsSub_append_mid :
    ∀ (a p b : List Char), containsSub (a ++ (p ++ b)) p = true := by
  intro a p b
  induction a with
  | nil =>
      cases p with
      | nil => cases b <;> simp [containsSub, isPrefixCL]
      | cons c cs =>
          simp only [List.nil_append, List.cons_append, containsSub, Bool.or_eq_true]
          exact Or.inl (by simp [isPrefixCL, isPrefixCL_self_append])
  | cons x xs ih => simp [containsSub, ih]

/-- A string whose character list is a cons is not empty. -/
theorem str_ne_empty {s : String} {c : Char} {l : List Char}
    (h : s.data = c :: l) : s ≠ "" := by
  intro he
  rw [he] at h
  exact absurd h (by simp [String.data])

/-- `matchRelative` computed from an exposed character list. -/
theorem matchRelative_eq {s : String} {r : List Char} (hr : s.data = '-' :: r) :
    matchRelative s = relAux r false 0 := by
  unfold matchRelative
  rw [hr]
  show (if '-' = '-' then relAux r false 0 else none) = relAux r false 0
  rw [if_pos rfl]

/-- A successful relative match forces the leading `-`. -/
theorem matchRelative_head {s : String} {p : Nat × Char}
    (h : matchRelative s = some p) : ∃ r, s.data = '-' :: r := by
  cases hd : s.data with
  | nil =>
      have h0 : matchRelative s = none := by unfold matchRelative; rw [hd]
      rw [h0] at h
      exact absurd h (by simp)
  | cons c rest =>
      by_cases hc : c = '-'
      · exact ⟨rest, by rw [hc]⟩
      · have h0 : matchRelative s = none := by
          unfold matchRelative
          rw [hd]
          exact if_neg hc
        rw [h0] at h
        exact absurd h (by simp)

/-- The unit accepted by the relative regex is `m`, `h` or `d`. -/
theorem relAux_unit :
    ∀ (l : List Char) (seen : Bool) (acc n : Nat) (u : Char),
      relAux l seen acc = some (n, u) → u = 'm' ∨ u = 'h' ∨ u = 'd' := by
  intro l
  induction l with
  | nil => intro seen acc n u h; exact absurd h (by simp [relAux])
  | cons c cs ih =>
      intro seen acc n u h
      unfold relAux at h
      cases hdv : pyDigitVal c with
      | some d =>
          rw [hdv] at h
          exact ih true (acc * 10 + d) n u h
      | none =>
          rw [hdv] at h
          by_cases hs : (seen && (c == 'm' || c == 'h' || c == 'd')
              && (cs.isEmpty || cs == ['\n'])) = true
          · rw [if_pos hs] at h
            have hc : (c == 'm' || c == 'h' || c == 'd') = true := by
              simp only [Bool.and_eq_true] at hs
              exact hs.1.2
            have hu : u = c := by
              have hh := h
              simp at hh
              exact hh.2.symm
            subst hu
            rcases Bool.or_eq_true_iff.mp hc with h1 | h2
            · rcases Bool.or_eq_true_iff.mp h1 with h3 | h4
              · exact Or.inl (by simpa using h3)
              · exact Or.inr (Or.inl (by simpa using h4))
            · exact Or.inr (Or.inr (by simpa using h2))
          · rw [if_neg hs] at h
            exact absurd h (by simp)

/-- Fidelity of the `$` anchor: Python's `$` also matches just before a
single trailing newline, so the source regex accepts `"-7d\n"` (but not
two trailing newlines); the model agrees. -/
theorem matchRelative_trailing_newline :
    matchRelative "-7d\n" = some (7, 'd') ∧ matchRelative "-7d\n\n" = none :=
  ⟨by decide, by decide⟩

/-- Fidelity of `\d`: Python's `\d` matches any Unicode decimal digit and
`int()` uses its decimal value, so the source accepts an Arabic-Indic
seven; the model agrees. -/
theorem matchRelative_unicode_digit :
    matchRelative "-٧d" = some (7, 'd') :=
  by decide

/-- The mapped lowercase of a string starting with `-` is not a now-literal. -/
theorem lower_ne_now {s : String} (h : ∃ r, s.data = '-' :: r) :
    ¬(strLower s = "now" ∨ strLower s = "now()") := by
  obtain ⟨r, hr⟩ := h
  intro hor
  have hd : (strLower s).data = '-' :: r.map Char.toLower := by
    simp [strLower, hr, Char.toLower]
  cases hor with
  | inl h1 => rw [h1] at hd; exact absurd hd (by simp [String.data])
  | inr h2 => rw [h2] at hd; exact absurd hd (by simp [String.data])

/-- Behaviour of `_parse_time_string` on a successful relative match. -/
theorem parse_time_string_relative {s : String} {n : Nat} {u : Char}
    (now : Int) (relative_to : Option Int)
    (h : matchRelative s = some (n, u)) :
    _parse_time_string now s relative_to = .ok (relative_to.getD now - relDelta n u) := by
  have hnn := lower_ne_now (matchRelative_head h)
  unfold _parse_time_string
  rw [if_neg hnn, h]

-- ---------------------------------------------------------------------------
-- C1: relative time expressions resolve to anchor minus duration
-- ---------------------------------------------------------------------------

/-- C1: for every relative expression matching `-<integer><unit>` with unit
in `{m, h, d}` and every fixed anchor instant, `_parse_time_string` resolves
it to exactly `anchor - duration` (`relDelta` is 60/3600/86400 seconds per
unit); inside `parse_time_range` the start expression is anchored to the
already-resolved stop instant, while a relative stop expression is anchored
to the current instant `now`. -/
theorem relative_expr_resolved (now : Int) (s : String) (n : Nat) (u : Char)
    (h : matchRelative s = some (n, u)) :
    (u = 'm' ∨ u = 'h' ∨ u = 'd')
    ∧ (∀ anchor : Int, _parse_time_string now s (some anchor) = .ok (anchor - relDelta n u))
    ∧ _parse_time_string now s none = .ok (now - relDelta n u)
    ∧ (∀ (stopS : String) (stopv : Int),
        _parse_time_string now stopS none = .ok stopv →
        parse_time_range now s (some stopS) = .ok (stopv - relDelta n u, stopv))
    ∧ (∀ (startS : String) (startv : Int),
        _parse_time_string now startS (some (now - relDelta n u)) = .ok startv →
        parse_time_range now startS (some s) = .ok (startv, now - relDelta n u)) := by
  obtain ⟨r, hr⟩ := matchRelative_head h
  have hne : s ≠ "" := str_ne_empty hr
  have hunit : u = 'm' ∨ u = 'h' ∨ u = 'd' :=
    relAux_unit r false 0 n u ((matchRelative_eq hr).symm.trans h)
  refine ⟨hunit, fun anchor => parse_time_string_relative now (some anchor) h,
    parse_time_string_relative now none h, ?_, ?_⟩
  · intro stopS stopv hstop
    by_cases hse : stopS = ""
    · rw [hse] at hstop
      have he : _parse_time_string now "" none
          = .error ("Invalid time format ''. Must be ISO 8601 or relative (e.g., '-7d').") := rfl
      rw [he] at hstop
      exact absurd hstop (by simp)
    · have e1 : parse_time_range now s (some stopS)
          = Except.bind (_parse_time_string now (if stopS = "" then "now" else stopS) none)
              (fun stop_dt => Except.bind (_parse_time_string now s (some stop_dt))
                (fun start_dt => Except.ok (start_dt, stop_dt))) := rfl
      rw [e1, if_neg hse, hstop]
      simp only [Except.bind]
      rw [parse_time_string_relative now (some stopv) h]
      rfl
  · intro startS startv hstart
    have e1 : parse_time_range now startS (some s)
        = Except.bind (_parse_time_string now (if s = "" then "now" else s) none)
            (fun stop_dt => Except.bind (_parse_time_string now startS (some stop_dt))
              (fun start_dt => Except.ok (start_dt, stop_dt))) := rfl
    rw [e1, if_neg hne, parse_time_string_relative now none h]
    simp only [Except.bind, Option.getD]
    rw [hstart]

/-- Witness for C1 at the concrete expression `-7d` and anchor 1000000. -/
theorem relative_expr_resolved_witness :
    matchRelative "-7d" = some (7, 'd')
    ∧ _parse_time_string 100 "-7d" (some 1000000) = .ok (1000000 - relDelta 7 'd')
    ∧ parse_time_range 100 "-7d" (some "now") = .ok (100 - relDelta 7 'd', 100) :=
  ⟨by decide,
   (relative_expr_resolved 100 "-7d" 7 'd' (by decide)).2.1 1000000,
   (relative_expr_resolved 100 "-7d" 7 'd' (by decide)).2.2.2.1 "now" 100 rfl⟩

-- ---------------------------------------------------------------------------
-- C10: absent / None / empty stop behaves as "now"
-- ---------------------------------------------------------------------------

/-- C10: for every start string, calling `parse_time_range` with stop
`none` (Python `None`; the absent argument defaults to `"now"` in the
source) or `some ""` behaves exactly as with stop `"now"`; the now-literals
are accepted case-insensitively and resolve to the current instant; and
under a `none` stop the resulting stop instant is `now` and the start
string is resolved against that instant. -/
theorem stop_default_now (now : Int) (start : String) :
    parse_time_range now start none = parse_time_range now start (some "now")
    ∧ parse_time_range now start (some "") = parse_time_range now start (some "now")
    ∧ (∀ s : String, strLower s = "now" ∨ strLower s = "now()" →
        _parse_time_string now s none = .ok now)
    ∧ (∀ r : Int × Int, parse_time_range now start none = .ok r →
        r.2 = now ∧ _parse_time_string now start (some now) = .ok r.1) := by
  refine ⟨rfl, rfl, ?_, ?_⟩
  · intro s hs
    unfold _parse_time_string
    rw [if_pos hs]
  · intro r hr
    have e1 : parse_time_range now start none
        = Except.bind (_parse_time_string now "now" none)
            (fun stop_dt => Except.bind (_parse_time_string now start (some stop_dt))
              (fun start_dt => Except.ok (start_dt, stop_dt))) := rfl
    have hnow : _parse_time_string now "now" none = .ok now := rfl
    rw [e1, hnow] at hr
    simp only [Except.bind] at hr
    cases hst : _parse_time_string now start (some now) with
    | error e =>
        rw [hst] at hr
        simp only [Except.bind] at hr
        exact absurd hr (by simp)
    | ok v =>
        rw [hst] at hr
        simp only [Except.bind] at hr
        have hrv : (v, now) = r := by simpa using hr
        subst hrv
        exact ⟨rfl, rfl⟩

/-- Witness for C10 at `now = 42`, start `"-1h"`, and the uppercase
now-literal `"NOW()"`. -/
theorem stop_default_now_witness :
    _parse_time_string 42 "NOW()" none = .ok 42
    ∧ ((-3558 : Int), (42 : Int)).2 = 42
    ∧ _parse_time_string 42 "-1h" (some 42) = .ok (-3558) :=
  ⟨(stop_default_now 42 "-1h").2.2.1 "NOW()" (by decide),
   ((stop_default_now 42 "-1h").2.2.2 (-3558, 42)
     (show parse_time_range 42 "-1h" none = Except.ok (-3558, 42) from rfl)).1,
   ((stop_default_now 42 "-1h").2.2.2 (-3558, 42)
     (show parse_time_range 42 "-1h" none = Except.ok (-3558, 42) from rfl)).2⟩

-- ---------------------------------------------------------------------------
-- C5: strings matching neither grammar fail with InvalidTimeFormat
-- ---------------------------------------------------------------------------

/-- C5 counterexample: the literal `"now"` matches neither the relative
grammar `-<integer><m|h|d>` nor ISO-8601, yet `parse_time_range` succeeds
on it instead of failing with an `InvalidTimeFormat` error, because the
now-literals are checked before both grammars. -/
theorem now_matches_neither_yet_succeeds :
    matchRelative "now" = none
    ∧ parseISO8601 "now" = none
    ∧ parse_time_range 0 "now" (some "now") = .ok (0, 0) :=
  ⟨by decide, by decide, rfl⟩

/-- C5 (amended): for every input string that is not a case-insensitive
now-literal (`"now"`/`"now()"`) and matches neither the relative grammar
`-<integer><m|h|d>` nor an ISO-8601 timestamp, `_parse_time_string` — and
hence `parse_time_range`, in either argument position — fails with the
`InvalidTimeFormat` `ValueError`, whose message names the offending
string. -/
theorem invalid_time_format_rejected (now : Int) (s : String)
    (h1 : strLower s ≠ "now") (h2 : strLower s ≠ "now()")
    (h3 : matchRelative s = none) (h4 : parseISO8601 s = none) :
    _parse_time_string now s none
      = .error ("Invalid time format '" ++ s ++ "'. Must be ISO 8601 or relative (e.g., '-7d').")
    ∧ containsSub ("Invalid time format '" ++ s
        ++ "'. Must be ISO 8601 or relative (e.g., '-7d').").data s.data = true
    ∧ parse_time_range now s (some "now")
      = .error ("Invalid time format '" ++ s ++ "'. Must be ISO 8601 or relative (e.g., '-7d').")
    ∧ (s ≠ "" → parse_time_range now "now" (some s)
      = .error ("Invalid time format '" ++ s
          ++ "'. Must be ISO 8601 or relative (e.g., '-7d').")) := by
  have hmain : ∀ rel : Option Int, _parse_time_string now s rel
      = .error ("Invalid time format '" ++ s
          ++ "'. Must be ISO 8601 or relative (e.g., '-7d').") := by
    intro rel
    unfold _parse_time_string
    rw [if_neg (not_or.mpr ⟨h1, h2⟩), h3, h4]
  have hsub : containsSub ("Invalid time format '" ++ s
      ++ "'. Must be ISO 8601 or relative (e.g., '-7d').").data s.data = true := by
    rw [sapp_data, sapp_data, List.append_assoc]
    exact containsSub_append_mid _ _ _
  refine ⟨hmain none, hsub, ?_, ?_⟩
  · have e1 : parse_time_range now s (some "now")
        = Except.bind (_parse_time_string now "now" none)
            (fun stop_dt => Except.bind (_parse_time_string now s (some stop_dt))
              (fun start_dt => Except.ok (start_dt, stop_dt))) := rfl
    have hnow : _parse_time_string now "now" none = .ok now := rfl
    rw [e1, hnow]
    simp only [Except.bind]
    rw [hmain (some now)]
  · intro hs_ne
    have e1 : parse_time_range now "now" (some s)
        = Except.bind (_parse_time_string now (if s = "" then "now" else s) none)
            (fun stop_dt => Except.bind (_parse_time_string now "now" (some stop_dt))
              (fun start_dt => Except.ok (start_dt, stop_dt))) := rfl
    rw [e1, if_neg hs_ne, hmain none]
    simp only [Except.bind]

/-- Witness for C5 (amended) at the unsupported-unit expression `"-5y"`. -/
theorem invalid_time_format_rejected_witness :
    _parse_time_string 0 "-5y" none
      = .error "Invalid time format '-5y'. Must be ISO 8601 or relative (e.g., '-7d')."
    ∧ parse_time_range 0 "-5y" (some "now")
      = .error "Invalid time format '-5y'. Must be ISO 8601 or relative (e.g., '-7d')." :=
  ⟨(invalid_time_format_rejected 0 "-5y" (by decide) (by decide) (by decide) (by decide)).1,
   (invalid_time_format_rejected 0 "-5y" (by decide) (by decide) (by decide) (by decide)).2.2.1⟩

-- ---------------------------------------------------------------------------
-- C3: dialect-A last-point statement, concrete instance
-- ---------------------------------------------------------------------------

/-- C3: for the dialect-A "last point" operation with measurement
`device_status`, field `battery` and tag set `{device_id: abc-123}` (the
target `iot-db` is passed to the client separately, not rendered into the
statement), the emitted statement is exactly
`SELECT "battery" FROM "device_status" WHERE "device_id" = 'abc-123' ORDER
BY time DESC LIMIT 1`. -/
theorem last_point_v1_statement_exact :
    buildLastPointV1Query "device_status" (some "battery") [("device_id", "abc-123")]
      = "SELECT \"battery\" FROM \"device_status\" WHERE \"device_id\" = 'abc-123' ORDER BY time DESC LIMIT 1" :=
  rfl

-- ---------------------------------------------------------------------------
-- C4: zero backend records - error for last point, empty success for ranged
-- ---------------------------------------------------------------------------

/-- C4: a "last point" request whose backend result has zero records fails
with the `NoDataFound` value-level error in both dialects, while a ranged
timeseries query with zero records succeeds, returning an empty point
sequence with `points_returned = 0`, in both dialects. -/
theorem zero_records_semantics :
    (∀ field : Option String, get_last_point_v1 field [] = .error noDataFound)
    ∧ (∀ tables : List FluxTable, tables.flatMap FluxTable.records = [] →
        get_last_point_v2 tables = .error noDataFound)
    ∧ (∀ (sIso eIso : String) (aggregate every : Option String) (fld : String),
        query_timeseries_v1 sIso eIso aggregate every fld []
          = .ok ⟨[], ⟨0, sIso, eIso, aggregate, every⟩⟩)
    ∧ (∀ (sIso eIso : String) (aggregate every : Option String)
        (tables : List FluxTable), tables.flatMap FluxTable.records = [] →
        query_timeseries_v2 sIso eIso aggregate every tables
          = ⟨[], ⟨0, sIso, eIso, aggregate, every⟩⟩) := by
  refine ⟨fun field => rfl, ?_, fun sIso eIso aggregate every fld => rfl, ?_⟩
  · intro tables h
    cases tables with
    | nil => rfl
    | cons t rest =>
        obtain ⟨recs⟩ := t
        have hrec : recs = [] := by
          rw [List.flatMap_cons] at h
          exact (List.append_eq_nil.mp h).1
        subst hrec
        rfl
  · intro sIso eIso aggregate every tables h
    unfold query_timeseries_v2
    rw [h]
    rfl

/-- Witness for C4: one empty v2 table still yields the `NoDataFound`
error for last point, and an empty v2 result yields the empty ranged
response. -/
theorem zero_records_semantics_witness :
    get_last_point_v2 [FluxTable.mk []] = .error noDataFound
    ∧ query_timeseries_v2 "S" "E" none none []
      = ⟨[], ⟨0, "S", "E", none, none⟩⟩ :=
  ⟨zero_records_semantics.2.1 [FluxTable.mk []] rfl,
   zero_records_semantics.2.2.2 "S" "E" none none [] rfl⟩

-- ---------------------------------------------------------------------------
-- C7: dialect-A container listing - one entry per (db, rp) pair
-- ---------------------------------------------------------------------------

/-- C7: in the dialect-A container listing, every database with retention
policies contributes exactly one entry per (database, retention-policy)
pair named `db/rp`, and every database without retention policies
contributes exactly one entry named `db`; the listing is the concatenation
of the per-database entries.  In particular a database with policies `rp1`
and `rp2` yields exactly the two entries `db/rp1` and `db/rp2`. -/
theorem list_containers_v1_shape :
    (∀ dbs : List (String × List RetentionPolicy),
        (list_buckets_or_dbs_v1 dbs).map BucketInfo.name
          = dbs.flatMap (fun db =>
              if db.2 ≠ [] then db.2.map (fun rp => db.1 ++ "/" ++ rp.name) else [db.1]))
    ∧ (∀ (db : String) (rps : List RetentionPolicy), rps ≠ [] →
        (list_buckets_or_dbs_v1 [(db, rps)]).length = rps.length)
    ∧ (list_buckets_or_dbs_v1 [("db", [⟨"rp1", "0s", 1⟩, ⟨"rp2", "0s", 1⟩])]).map
        BucketInfo.name = ["db/rp1", "db/rp2"]
    ∧ (list_buckets_or_dbs_v1 [("db", [])]).map BucketInfo.name = ["db"] := by
  refine ⟨?_, ?_, rfl, rfl⟩
  · intro dbs
    unfold list_buckets_or_dbs_v1
    rw [List.map_flatMap]
    congr 1
    funext db
    by_cases h : db.2 = []
    · simp [h]
    · simp [h]
  · intro db rps h
    unfold list_buckets_or_dbs_v1
    simp [h]

/-- Witness for C7: a single database with one retention policy yields
exactly one entry. -/
theorem list_containers_v1_shape_witness :
    (list_buckets_or_dbs_v1 [("db", [⟨"rp1", "0s", 1⟩])]).length = 1 :=
  list_containers_v1_shape.2.1 "db" [⟨"rp1", "0s", 1⟩] (by simp)

-- ---------------------------------------------------------------------------
-- C8: dialect auto-detection protocol
-- ---------------------------------------------------------------------------

/-- C8: with dialect configured as `auto`, the v2 readiness probe is
consulted first and dialect B is selected iff it returned HTTP 200;
otherwise the v1 ping probe decides, selecting dialect A iff it returned
HTTP 204; when neither probe succeeds, construction fails with the
detection error instructing the operator to set the dialect explicitly,
and no client is produced. -/
theorem auto_detection_protocol (v2p v1p : Option Nat) :
    (get_influx_client "auto" v2p v1p = .ok .v2 ↔ v2p = some 200)
    ∧ (v2p ≠ some 200 →
        (get_influx_client "auto" v2p v1p = .ok .v1 ↔ v1p = some 204))
    ∧ (v2p ≠ some 200 → v1p ≠ some 204 →
        get_influx_client "auto" v2p v1p
          = .error "Could not auto-detect InfluxDB version. Please specify INFLUX_VERSION=1 or INFLUX_VERSION=2.") := by
  have hgc : get_influx_client "auto" v2p v1p
      = match autoDetect v2p v1p with
        | some c => .ok c
        | none => .error "Could not auto-detect InfluxDB version. Please specify INFLUX_VERSION=1 or INFLUX_VERSION=2." := rfl
  cases v2p with
  | none =>
      cases v1p with
      | none => exact ⟨by simp [hgc, autoDetect, detectV1], fun _ => by simp [hgc, autoDetect, detectV1], fun _ _ => by simp [hgc, autoDetect, detectV1]⟩
      | some c1 =>
          by_cases h1 : c1 = 204
          · subst h1
            exact ⟨by simp [hgc, autoDetect, detectV1], fun _ => by simp [hgc, autoDetect, detectV1], fun _ h => absurd rfl h⟩
          · exact ⟨by simp [hgc, autoDetect, detectV1, h1], fun _ => by simp [hgc, autoDetect, detectV1, h1], fun _ _ => by simp [hgc, autoDetect, detectV1, h1]⟩
  | some c2 =>
      by_cases h2 : c2 = 200
      · subst h2
        refine ⟨by simp [hgc, autoDetect], fun hne => absurd rfl hne, fun hne _ => absurd rfl hne⟩
      · have hh : autoDetect (some c2) v1p = detectV1 v1p := by
          simp [autoDetect, h2]
        cases v1p with
        | none =>
            exact ⟨by simp [hgc, hh, detectV1, h2], fun _ => by simp [hgc, hh, detectV1], fun _ _ => by simp [hgc, hh, detectV1]⟩
        | some c1 =>
            by_cases h1 : c1 = 204
            · subst h1
              exact ⟨by simp [hgc, hh, detectV1, h2], fun _ => by simp [hgc, hh, detectV1], fun _ h => absurd rfl h⟩
            · exact ⟨by simp [hgc, hh, detectV1, h1, h2], fun _ => by simp [hgc, hh, detectV1, h1], fun _ _ => by simp [hgc, hh, detectV1, h1]⟩

/-- Witness for C8: both probes failing (v2 probe HTTP 500, v1 probe
request exception) yields the detection error. -/
theorem auto_detection_protocol_witness :
    get_influx_client "auto" (some 500) none
      = .error "Could not auto-detect InfluxDB version. Please specify INFLUX_VERSION=1 or INFLUX_VERSION=2." :=
  (auto_detection_protocol (some 500) none).2.2 (by simp) (by simp)

-- ---------------------------------------------------------------------------
-- C6: dialect-A fill policy - linear omitted, others rendered
-- ---------------------------------------------------------------------------

/-- A string starting with a known character is non-empty after appending. -/
theorem str_concat_ne_empty (a b : String) (c : Char) (l : List Char)
    (ha : a.data = c :: l) : a ++ b ≠ "" := by
  intro h
  have hd := congrArg String.data h
  rw [sapp_data, ha] at hd
  exact absurd hd (by simp [String.data])

/-- C6: for every dialect-A ranged query with truthy aggregation function
and window, the builder emits one fixed query for `fill=linear` that
simply omits the fill clause (the query is the same core text directly
followed by the LIMIT clause), while every other fill policy renders the
clause `fill(<policy>)` between the core and the LIMIT clause; the
concrete `fill=linear` query contains no `fill(` text at all. -/
theorem v1_fill_linear_omitted (db : String) (rp : Option String)
    (meas fld sIso eIso : String) (tags : List (String × String))
    (aggregate every : Option String) (lim : Nat)
    (hA : isTruthy aggregate = true) (hE : isTruthy every = true) :
    (∃ core : String,
      buildInfluxQLQuery db rp meas fld sIso eIso tags aggregate every lim "linear"
        = core ++ (" LIMIT " ++ toString lim)
      ∧ (∀ fill : String, fill ≠ "linear" →
          buildInfluxQLQuery db rp meas fld sIso eIso tags aggregate every lim fill
            = (core ++ (" " ++ ("fill(" ++ fill ++ ")"))) ++ (" LIMIT " ++ toString lim)))
    ∧ containsSub (buildInfluxQLQuery "iot-db" none "temp" "value" "S" "E" []
        (some "mean") (some "5m") 1000 "linear").data "fill(".data = false := by
  have hagg : (isTruthy aggregate && isTruthy every) = true := by rw [hA, hE]; rfl
  have hg : ("GROUP BY time(" ++ every.getD "" ++ ")") ≠ "" := by
    have hd : ("GROUP BY time(" ++ every.getD "").data
        = 'G' :: ("ROUP BY time(".data ++ (every.getD "").data) := by
      rw [sapp_data]; rfl
    exact str_concat_ne_empty _ _ 'G' _ hd
  refine ⟨⟨(let q := "SELECT " ++ (aggregate.getD "" ++ "(\"" ++ fld ++ "\")") ++ " FROM "
      ++ qlTargetMeasurement db rp meas ++ " WHERE "
      ++ ("time >= '" ++ sIso ++ "Z' AND time <= '" ++ eIso ++ "Z'");
    let q := if qlTagFilters tags ≠ "" then q ++ (" AND " ++ qlTagFilters tags) else q;
    q ++ (" " ++ ("GROUP BY time(" ++ every.getD "" ++ ")"))), ?_, ?_⟩, by decide⟩
  · simp [buildInfluxQLQuery, hagg, hg]
  · intro fill hf
    have hfc : ("fill(" ++ fill ++ ")") ≠ "" := by
      have hd : ("fill(" ++ fill).data = 'f' :: ("ill(".data ++ fill.data) := by
        rw [sapp_data]; rfl
      exact str_concat_ne_empty _ _ 'f' _ hd
    simp [buildInfluxQLQuery, hagg, hg, hf, hfc]

/-- Witness for C6 at aggregate `mean`, window `5m`: the `fill=linear`
query carries no `fill(` clause. -/
theorem v1_fill_linear_omitted_witness :
    containsSub (buildInfluxQLQuery "iot-db" none "temp" "value" "S" "E" []
      (some "mean") (some "5m") 1000 "linear").data "fill(".data = false :=
  (v1_fill_linear_omitted "iot-db" none "temp" "value" "S" "E" []
    (some "mean") (some "5m") 1000 (by decide) (by decide)).2

-- ---------------------------------------------------------------------------
-- C2: dialect-B stage order
-- ---------------------------------------------------------------------------

/-- The prefix stages always contain the measurement-equality filter. -/
theorem fluxPrefix_has_measurement_filter (bucket meas fld sIso eIso : String)
    (tags : List (String × String)) :
    ∃ a b : String,
      fluxPrefix bucket meas fld sIso eIso tags = a ++ ("_measurement" ++ b) := by
  refine ⟨"from(bucket: \"" ++ bucket ++ "\")\n"
      ++ ("  |> range(" ++ ("start: " ++ sIso ++ "Z, stop: " ++ eIso ++ "Z") ++ ")\n")
      ++ "  |> filter(fn: (r) => r[\"",
    "\"] == \"" ++ meas ++ "\")\n"
      ++ ("  |> filter(fn: (r) => r[\"_field\"] == \"" ++ fld ++ "\")\n")
      ++ (if fluxTagFilters tags ≠ "" then
            "  |> filter(fn: (r) => " ++ fluxTagFilters tags ++ ")\n" else ""), ?_⟩
  have hsplit : ("  |> filter(fn: (r) => r[\"_measurement\"] == \"" : String)
      = ("  |> filter(fn: (r) => r[\"" ++ "_measurement") ++ "\"] == \"" := rfl
  simp only [fluxPrefix]
  rw [hsplit]
  simp only [sapp_assoc]

/-- The prefix stages always contain the field-equality filter. -/
theorem fluxPrefix_has_field_filter (bucket meas fld sIso eIso : String)
    (tags : List (String × String)) :
    ∃ a b : String,
      fluxPrefix bucket meas fld sIso eIso tags = a ++ ("_field" ++ b) := by
  refine ⟨"from(bucket: \"" ++ bucket ++ "\")\n"
      ++ ("  |> range(" ++ ("start: " ++ sIso ++ "Z, stop: " ++ eIso ++ "Z") ++ ")\n")
      ++ ("  |> filter(fn: (r) => r[\"_measurement\"] == \"" ++ meas ++ "\")\n")
      ++ "  |> filter(fn: (r) => r[\"",
    "\"] == \"" ++ fld ++ "\")\n"
      ++ (if fluxTagFilters tags ≠ "" then
            "  |> filter(fn: (r) => " ++ fluxTagFilters tags ++ ")\n" else ""), ?_⟩
  have hsplit : ("  |> filter(fn: (r) => r[\"_field\"] == \"" : String)
      = ("  |> filter(fn: (r) => r[\"" ++ "_field") ++ "\"] == \"" := rfl
  simp only [fluxPrefix]
  rw [hsplit]
  simp only [sapp_assoc]

/-- Without a truthy aggregate and window the aggregation block is absent. -/
theorem fluxAggPart_empty (aggregate every : Option String) (fill : String)
    (h : (isTruthy aggregate && isTruthy every) = false) :
    fluxAggPart aggregate every fill = "" := by
  simp [fluxAggPart, h]

/-- With a truthy aggregate and window the aggregation block starts with
the aggregateWindow stage. -/
theorem fluxAggPart_window (aggregate every : Option String) (fill : String)
    (h : (isTruthy aggregate && isTruthy every) = true) :
    ∃ a b : String,
      fluxAggPart aggregate every fill = a ++ ("aggregateWindow(every: " ++ b) := by
  refine ⟨"  |> ",
    every.getD "" ++ ", fn: " ++ aggregate.getD "" ++ ", createEmpty: "
      ++ (if fill ≠ "none" then "true" else "false") ++ ")\n"
      ++ (if (if fill = "linear" then "interpolate.linear(every: \x7bevery\x7d)"
              else if fill ≠ "none" then
                "fill(usePrevious: " ++ (if fill = "previous" then "true" else "false") ++ ")"
              else "") ≠ "" then
            "  |> " ++ (if fill = "linear" then "interpolate.linear(every: \x7bevery\x7d)"
              else if fill ≠ "none" then
                "fill(usePrevious: " ++ (if fill = "previous" then "true" else "false") ++ ")"
              else "") ++ "\n"
          else ""), ?_⟩
  have hsplit : ("  |> aggregateWindow(every: " : String)
      = "  |> " ++ "aggregateWindow(every: " := rfl
  simp only [fluxAggPart, h, if_true]
  rw [hsplit]
  simp only [sapp_assoc]

/-- C2: for the dialect-B builder with bucket `iot-bucket`, measurement
`temp`, field `value`, tag `device=abc`, aggregate `mean`, window `5m`,
the emitted query contains, in this order: the source clause, the
time-range clause, the measurement filter, the field filter, the tag
filter, the aggregation window stage with `mean` and `5m`, the limit
stage, and the terminal yield stage.  In general the query decomposes as
(filter stages) ++ (aggregation block) ++ (limit stage ++ yield stage),
where the filter stages contain the measurement and field filters and the
aggregation block holds the aggregateWindow stage exactly when aggregate
and window are truthy (and is empty otherwise); omitting the optional tag,
aggregation, or fill stages leaves no dangling `|>` connector. -/
theorem flux_query_stage_order :
    containsInOrder (buildFluxQuery "iot-bucket" "temp" "value" "2023-01-01T00:00:00"
        "2023-01-02T00:00:00" [("device", "abc")] (some "mean") (some "5m") 1000 "none").data
      ["from(bucket: \"iot-bucket\")",
       "|> range(start: 2023-01-01T00:00:00Z, stop: 2023-01-02T00:00:00Z)",
       "|> filter(fn: (r) => r[\"_measurement\"] == \"temp\")",
       "|> filter(fn: (r) => r[\"_field\"] == \"value\")",
       "|> filter(fn: (r) => r[\"device\"] == \"abc\")",
       "|> aggregateWindow(every: 5m, fn: mean",
       "|> limit(n: 1000)",
       "|> yield(name: \"results\")"] = true
    ∧ (∀ (bucket meas fld sIso eIso : String) (tags : List (String × String))
        (aggregate every : Option String) (lim : Nat) (fill : String),
        ∃ pre mid : String,
          buildFluxQuery bucket meas fld sIso eIso tags aggregate every lim fill
            = pre ++ (mid ++ ("  |> limit(n: "
                ++ (toString lim ++ (")\n" ++ "  |> yield(name: \"results\")"))))
          ∧ (∃ a b : String, pre = a ++ ("_measurement" ++ b))
          ∧ (∃ a b : String, pre = a ++ ("_field" ++ b))
          ∧ ((isTruthy aggregate && isTruthy every) = false → mid = "")
          ∧ ((isTruthy aggregate && isTruthy every) = true →
              ∃ a b : String, mid = a ++ ("aggregateWindow(every: " ++ b)))
    ∧ noDangling (buildFluxQuery "iot-bucket" "temp" "value" "S" "E" [("device", "abc")]
        (some "mean") (some "5m") 1000 "none").data = true
    ∧ noDangling (buildFluxQuery "iot-bucket" "temp" "value" "S" "E" []
        none none 1000 "none").data = true
    ∧ noDangling (buildFluxQuery "iot-bucket" "temp" "value" "S" "E" []
        (some "mean") (some "5m") 1000 "previous").data = true
    ∧ noDangling (buildFluxQuery "iot-bucket" "temp" "value" "S" "E" []
        (some "mean") (some "5m") 1000 "linear").data = true := by
  refine ⟨by decide, ?_, by decide, by decide, by decide, by decide⟩
  intro bucket meas fld sIso eIso tags aggregate every lim fill
  refine ⟨fluxPrefix bucket meas fld sIso eIso tags, fluxAggPart aggregate every fill,
    rfl, ?_, ?_, ?_, ?_⟩
  · exact fluxPrefix_has_measurement_filter bucket meas fld sIso eIso tags
  · exact fluxPrefix_has_field_filter bucket meas fld sIso eIso tags
  · exact fluxAggPart_empty aggregate every fill
  · exact fluxAggPart_window aggregate every fill

/-- Witness for C2: instantiating the general decomposition with no tags
and no aggregation discharges the inner implication - the aggregation
block is empty and the query still ends with the limit and yield stages. -/
theorem flux_query_stage_order_witness :
    ∃ pre mid : String,
      buildFluxQuery "b" "m" "f" "S" "E" [] none none 7 "none"
        = pre ++ (mid ++ ("  |> limit(n: "
            ++ (toString 7 ++ (")\n" ++ "  |> yield(name: \"results\")"))))
      ∧ mid = "" := by
  obtain ⟨pre, mid, h1, _, _, h4, _⟩ :=
    flux_query_stage_order.2.1 "b" "m" "f" "S" "E" [] none none 7 "none"
  exact ⟨pre, mid, h1, h4 rfl⟩

-- ---------------------------------------------------------------------------
-- C9: masking of sensitive settings data
-- ---------------------------------------------------------------------------

/-- An entry whose value is a `SecretStr` or whose key is sensitive is
replaced by the mask. -/
theorem maskEntry_masked (k : String) (v : MVal)
    (h : isSecretStr v = true ∨ k ∈ sensitiveKeys) :
    maskEntry k v = (k, MVal.str "***") := by
  have hc : (isSecretStr v || decide (k ∈ sensitiveKeys)) = true := by
    cases h with
    | inl h => rw [h]; rfl
    | inr h => simp [h]
  unfold maskEntry
  rw [if_pos hc]

/-- A non-secret, non-sensitive, non-dict entry is kept unchanged. -/
theorem maskEntry_unchanged (k : String) (v : MVal)
    (hv : isSecretStr v = false) (hk : k ∉ sensitiveKeys)
    (hd : ∀ d', v ≠ .dict d') :
    maskEntry k v = (k, v) := by
  have hc : ¬((isSecretStr v || decide (k ∈ sensitiveKeys)) = true) := by
    simp [hv, hk]
  unfold maskEntry
  rw [if_neg hc]
  cases v with
  | dict d' => exact absurd rfl (hd d')
  | secret s => rfl
  | str s => rfl
  | int i => rfl
  | null => rfl

/-- The key of an entry is never altered by masking. -/
theorem maskEntry_key (k : String) (v : MVal) : (maskEntry k v).1 = k := by
  unfold maskEntry
  by_cases hc : (isSecretStr v || decide (k ∈ sensitiveKeys)) = true
  · rw [if_pos hc]
  · rw [if_neg hc]
    cases v <;> rfl

/-- No `SecretStr` survives `mask_sensitive_data`, at any nesting depth. -/
theorem secretFree_mask (d : List (String × MVal)) :
    secretFreeList (mask_sensitive_data d) = true := by
  have H : ∀ (n : Nat) (d : List (String × MVal)), sizeOf d ≤ n →
      secretFreeList (mask_sensitive_data d) = true := by
    intro n
    induction n with
    | zero =>
        intro d hd
        cases d with
        | nil => rfl
        | cons kv rest =>
            rw [List.cons.sizeOf_spec] at hd
            omega
    | succ n ih =>
        intro d hd
        cases d with
        | nil => rfl
        | cons kv rest =>
            obtain ⟨k, v⟩ := kv
            rw [List.cons.sizeOf_spec, Prod.mk.sizeOf_spec] at hd
            have hrest : secretFreeList (mask_sensitive_data rest) = true := by
              apply ih
              omega
            have hentry : secretFreeVal (maskEntry k v).2 = true := by
              unfold maskEntry
              by_cases hc : (isSecretStr v || decide (k ∈ sensitiveKeys)) = true
              · rw [if_pos hc]
                rfl
              · rw [if_neg hc]
                cases v with
                | dict d' =>
                    show secretFreeList (mask_sensitive_data d') = true
                    apply ih
                    rw [MVal.dict.sizeOf_spec] at hd
                    omega
                | secret s => simp [isSecretStr] at hc
                | str s => rfl
                | int i => rfl
                | null => rfl
            show (secretFreeVal (maskEntry k v).2 && secretFreeList (mask_sensitive_data rest)) = true
            rw [hentry, hrest]
            rfl
  exact H (sizeOf d) d (Nat.le_refl _)

/-- C9: the masking used by the settings debug representation replaces
every `SecretStr`-typed value and every value under a key named `token`
or `password` by `"***"` (recursively through nested dicts), keeps every
key and every other non-dict value unchanged, leaves no secret plaintext
anywhere in its output, and consequently `Settings.__repr__` is identical
for any two settings that differ only in the values of their secret
fields. -/
theorem mask_sensitive_repr :
    (∀ d, secretFreeList (mask_sensitive_data d) = true)
    ∧ (∀ d, (mask_sensitive_data d).map Prod.fst = d.map Prod.fst)
    ∧ (∀ (d : List (String × MVal)) (k : String) (v : MVal), (k, v) ∈ d →
        (isSecretStr v = true ∨ k ∈ sensitiveKeys) →
        (k, MVal.str "***") ∈ mask_sensitive_data d)
    ∧ (∀ (d : List (String × MVal)) (k : String) (v : MVal), (k, v) ∈ d →
        isSecretStr v = false → k ∉ sensitiveKeys → (∀ d', v ≠ .dict d') →
        (k, v) ∈ mask_sensitive_data d)
    ∧ (∀ s1 s2 : Settings,
        s1.mcp_log_level = s2.mcp_log_level →
        s1.influx_version = s2.influx_version →
        s1.influx_url = s2.influx_url →
        s1.influx_request_timeout_sec = s2.influx_request_timeout_sec →
        s1.influx_org = s2.influx_org →
        s1.influx_token.isSome = s2.influx_token.isSome →
        s1.influx_default_bucket = s2.influx_default_bucket →
        s1.influx_username = s2.influx_username →
        s1.influx_password.isSome = s2.influx_password.isSome →
        s1.influx_default_db = s2.influx_default_db →
        s1.influx_default_rp = s2.influx_default_rp →
        settingsRepr s1 = settingsRepr s2) := by
  refine ⟨secretFree_mask, ?_, ?_, ?_, ?_⟩
  · intro d
    induction d with
    | nil => rfl
    | cons kv rest ih =>
        obtain ⟨k, v⟩ := kv
        show (maskEntry k v).1 :: (mask_sensitive_data rest).map Prod.fst = k :: rest.map Prod.fst
        rw [maskEntry_key, ih]
  · intro d k v hmem hsens
    induction d with
    | nil => exact absurd hmem (List.not_mem_nil _)
    | cons kv rest ih =>
        rcases List.mem_cons.mp hmem with heq | htail
        · rw [← heq]
          show (k, MVal.str "***") ∈ maskEntry k v :: mask_sensitive_data rest
          rw [maskEntry_masked k v hsens]
          exact List.mem_cons_self _ _
        · exact List.mem_cons_of_mem _ (ih htail)
  · intro d k v hmem hv hk hd
    induction d with
    | nil => exact absurd hmem (List.not_mem_nil _)
    | cons kv rest ih =>
        rcases List.mem_cons.mp hmem with heq | htail
        · rw [← heq]
          show (k, v) ∈ maskEntry k v :: mask_sensitive_data rest
          rw [maskEntry_unchanged k v hv hk hd]
          exact List.mem_cons_self _ _
        · exact List.mem_cons_of_mem _ (ih htail)
  · intro s1 s2 h1 h2 h3 h4 h5 h6 h7 h8 h9 h10 h11
    cases ht1 : s1.influx_token <;> cases ht2 : s2.influx_token <;>
      rw [ht1, ht2] at h6 <;>
      cases hp1 : s1.influx_password <;> cases hp2 : s2.influx_password <;>
        rw [hp1, hp2] at h9 <;>
        simp at h6 h9 <;>
        simp [settingsRepr, model_dump, mask_sensitive_data, maskEntry,
          optStr, optSecret, isSecretStr, sensitiveKeys, renderDict,
          renderEntries, renderVal, ht1, ht2, hp1, hp2,
          h1, h2, h3, h4, h5, h7, h8, h10, h11]

/-- Witness for C9: two settings objects that differ only in their token
and password plaintexts have identical debug representations. -/
theorem mask_sensitive_repr_witness :
    settingsRepr ⟨"INFO", "auto", "http://localhost:8086", 30, none, some "token-A",
        none, none, some "pw-A", none, none⟩
      = settingsRepr ⟨"INFO", "auto", "http://localhost:8086", 30, none, some "token-B",
        none, none, some "pw-B", none, none⟩ :=
  mask_sensitive_repr.2.2.2.2 _ _ rfl rfl rfl rfl rfl rfl rfl rfl rfl rfl rfl

end InfluxMCP
